import Mathlib

/-!
Shallow embedding of the control logic of react-native-scroll-track:
the tap/drag-to-position mapping and thumb geometry of
`ScrollProgressTrack` (src/unnamed/part_002), the scroll/visibility
state machine of the `useScrollTrack` hook
(src/src/hooks/useScrollTrack.tsx), and the event-tolerance behaviour of
`handleScrollForVisibility` (src/src/ScrollProgressTrack.tsx, second
document) and `onLayout`.  Real-number arithmetic of the source is
modelled with `ℚ` (exact; the source's IEEE doubles are exact on the
small inputs used here).
-/

namespace ScrollTrack

/-- Translation of `Math.max(0, Math.min(1, x))`, the clamping used on raw tap
coordinates in `handleTapGesture` and `handleTrackGesture`
(src/unnamed/part_002 lines 170, 183, 203). -/
def clamp01 (x : ℚ) : ℚ := max 0 (min 1 x)

/-- Translation of `const availableHeight = Math.max(100, containerHeight)`
(src/unnamed/part_002 line 127): the rendered track length. -/
def availableHeight (containerHeight : ℚ) : ℚ := max 100 containerHeight

/-- The tap-to-position mapping of `handleTapGesture`
(src/unnamed/part_002 lines 203-204):
`rawPosition = Math.max(0, Math.min(1, y / availableHeight));
position = inverted ? 1 - rawPosition : rawPosition`.
The same two lines appear in `handleTrackGesture` for BEGAN (lines
170-171) and ACTIVE (lines 183-184). -/
def tapPosition (inverted : Bool) (containerHeight y : ℚ) : ℚ :=
  let rawPosition := clamp01 (y / availableHeight containerHeight)
  if inverted then 1 - rawPosition else rawPosition

/-- Translation of `const maxOffset = Math.max(0, contentHeight - containerHeight)`
(src/src/hooks/useScrollTrack.tsx line 115). -/
def maxOffset (contentHeight containerHeight : ℚ) : ℚ :=
  max 0 (contentHeight - containerHeight)

/-- Translation of `const targetOffset = position * maxOffset` inside `scrollToPosition`
(src/src/hooks/useScrollTrack.tsx line 116): the offset of the scroll-to
request issued to the host view.  `position` is used as given, with no
clamping. -/
def targetOffset (contentHeight containerHeight position : ℚ) : ℚ :=
  position * maxOffset contentHeight containerHeight

/-- Translation of `const scrollRange = Math.max(1, contentHeight - containerHeight)`
(src/unnamed/part_002 line 138); also `maxScrollDistance` in
`getNormalizedScrollPosition` (src/src/hooks/useAnimatedScrollPosition.ts
line 35). -/
def scrollRange (contentHeight containerHeight : ℚ) : ℚ :=
  max 1 (contentHeight - containerHeight)

/-- Translation of `calculateThumbHeight` (src/unnamed/part_002 lines 128-133):
returns 0 when content fits, otherwise
`min(availableHeight * (containerHeight / contentHeight), availableHeight * 0.8)`. -/
def calculateThumbHeight (contentHeight containerHeight : ℚ) : ℚ :=
  if contentHeight ≤ containerHeight then 0
  else
    min (availableHeight containerHeight * (containerHeight / contentHeight))
      (availableHeight containerHeight * (8 / 10))

/-- Translation of `const maxThumbPosition = Math.max(0, availableHeight - currentThumbHeight)`
(src/unnamed/part_002 line 136): the maximum thumb travel distance. -/
def maxThumbPosition (contentHeight containerHeight : ℚ) : ℚ :=
  max 0 (availableHeight containerHeight - calculateThumbHeight contentHeight containerHeight)

/-- React Native `interpolate` with a two-point input range `[lo, hi]`,
output range `[a, b]` and `extrapolate: clamp`: the input is clamped to
`[lo, hi]` and mapped linearly. -/
def interpolateClamp (x lo hi a b : ℚ) : ℚ :=
  let t := max lo (min hi x)
  a + (t - lo) / (hi - lo) * (b - a)

/-- Translation of `animatedThumbPosition` (src/unnamed/part_002 lines 140-144), in the
animated path (`animatedScrollPosition` supplied, as both entry points
do): input range `[0, scrollRange]`, output range
`inverted ? [maxThumbPosition, 0] : [0, maxThumbPosition]`, clamped. -/
def animatedThumbPosition (inverted : Bool) (contentHeight containerHeight offset : ℚ) : ℚ :=
  if inverted then
    interpolateClamp offset 0 (scrollRange contentHeight containerHeight)
      (maxThumbPosition contentHeight containerHeight) 0
  else
    interpolateClamp offset 0 (scrollRange contentHeight containerHeight)
      0 (maxThumbPosition contentHeight containerHeight)

/-- Translation of `getNormalizedScrollPosition` (src/src/hooks/useAnimatedScrollPosition.ts
lines 34-42): the forward offset-to-normalized map, interpolating the raw
offset over `[0, Math.max(1, contentHeight - containerHeight)]` to `[0, 1]`
with clamping. -/
def getNormalizedScrollPosition (contentHeight containerHeight offset : ℚ) : ℚ :=
  interpolateClamp offset 0 (scrollRange contentHeight containerHeight) 0 1

/-- The configuration options of `useScrollTrack`
(src/src/hooks/useScrollTrack.tsx lines 36-47) that matter for the
control logic; defaults there are `alwaysVisible = false`,
`disableGestures = false`, `fadeOutDelay = 1000`, `inverted = false`,
`minScrollDistanceToShow = 20`. -/
structure Config where
  alwaysVisible : Bool
  disableGestures : Bool
  inverted : Bool
  fadeOutDelay : ℚ
  minScrollDistanceToShow : ℚ
deriving Repr, DecidableEq

/-- The mutable state of the `useScrollTrack` hook
(src/src/hooks/useScrollTrack.tsx lines 52-61): `containerHeight`,
`contentHeight`, `isAutoHidden`, `isDragging`, and whether the
`autoHideTimer` ref currently holds a pending timeout. -/
structure HookState where
  containerHeight : ℚ
  contentHeight : ℚ
  isAutoHidden : Bool
  isDragging : Bool
  timerPending : Bool
deriving Repr, DecidableEq

/-- The initial hook state: heights 0, `useState(true)` for
`isAutoHidden` (line 54), `useState(false)` for `isDragging` (line 55),
no timer pending. -/
def initialState : HookState :=
  { containerHeight := 0, contentHeight := 0, isAutoHidden := true,
    isDragging := false, timerPending := false }

/-- Translation of `isScrollable` (src/src/hooks/useScrollTrack.tsx lines 57-59):
`contentHeight - containerHeight > minScrollDistanceToShow`. -/
def isScrollable (cfg : Config) (s : HookState) : Bool :=
  decide (cfg.minScrollDistanceToShow < s.contentHeight - s.containerHeight)

/-- Translation of `startAutoHideTimer` (src/src/hooks/useScrollTrack.tsx lines 70-78):
clears any pending timer, sets `isAutoHidden` to false, and schedules a
new hide timeout unless `alwaysVisible`. -/
def startAutoHideTimer (cfg : Config) (s : HookState) : HookState :=
  { s with isAutoHidden := false, timerPending := !cfg.alwaysVisible }

/-- The events driving the hook: `onLayout` (line 82), the
`onContentSizeChange` callback (line 87), `onScroll` (line 96), a call to
`scrollToPosition` (line 110, issued on every tap and drag move),
`handleDragStart` (line 134), `handleDragEnd` (line 140), and the
auto-hide timeout firing (line 74).  The timeout firing is the only
spontaneous event; all others are host callbacks. -/
inductive Event where
  | layout (h : ℚ)
  | contentSizeChange (h : ℚ)
  | scroll
  | scrollToPos (p : ℚ)
  | dragStart
  | dragEnd
  | timerFire
deriving Repr, DecidableEq

/-- One synchronous event-handler execution of the hook, translated
branch for branch from src/src/hooks/useScrollTrack.tsx.  `dragEnd`
models the deferred `setTimeout(startAutoHideTimer, 0)` (lines 142-147)
as having run; `scrollToPos` assumes the scroll ref is mounted (line 112)
so that `startAutoHideTimer` runs (line 114); `timerFire` performs
`setIsAutoHidden(true)` (line 75) when a timer is pending. -/
def step (cfg : Config) (s : HookState) : Event → HookState
  | .layout h => { s with containerHeight := h }
  | .contentSizeChange h => { s with contentHeight := h }
  | .scroll =>
      if isScrollable cfg s then
        if cfg.alwaysVisible then { s with isAutoHidden := false }
        else startAutoHideTimer cfg s
      else { s with timerPending := false, isAutoHidden := false }
  | .scrollToPos _ => startAutoHideTimer cfg s
  | .dragStart => { s with isDragging := true, timerPending := false, isAutoHidden := false }
  | .dragEnd =>
      if cfg.alwaysVisible then { s with isDragging := false }
      else startAutoHideTimer cfg { s with isDragging := false }
  | .timerFire =>
      if s.timerPending then { s with isAutoHidden := true, timerPending := false } else s

/-- The hook state reached from the initial state by a sequence of
events. -/
def run (cfg : Config) (es : List Event) : HookState :=
  es.foldl (step cfg) initialState

/-- The render guard of the `ScrollTrack` element
(src/src/hooks/useScrollTrack.tsx line 151, identical in
src/unnamed/part_002 line 214): the component is rendered only when
`containerHeight >= 100` and `contentHeight > containerHeight`. -/
def renderedGuard (s : HookState) : Bool :=
  !(decide (s.containerHeight < 100) || decide (s.contentHeight ≤ s.containerHeight))

/-- The `visible` prop passed to `ScrollProgressTrack`
(src/src/hooks/useScrollTrack.tsx line 169):
`alwaysVisible || (!isAutoHidden && isScrollable)`. -/
def visibleProp (cfg : Config) (s : HookState) : Bool :=
  cfg.alwaysVisible || (!s.isAutoHidden && isScrollable cfg s)

/-- Whether the track is rendered visible: the element is rendered at all
(line 151) and its `visible` prop is true (line 169). -/
def renderedVisible (cfg : Config) (s : HookState) : Bool :=
  renderedGuard s && visibleProp cfg s

/-- The `isVisible` value returned by the hook
(src/src/hooks/useScrollTrack.tsx line 187):
`isScrollable && (alwaysVisible || !isAutoHidden)`. -/
def isVisibleRet (cfg : Config) (s : HookState) : Bool :=
  isScrollable cfg s && (cfg.alwaysVisible || !s.isAutoHidden)

/-- Modelled from the spec: "Rendered visibility =
`scrollable && (forcedVisible || interacting || !suppressed)`", reading
`forcedVisible` as the `alwaysVisible` option, `interacting` as
`isDragging` and `suppressed` as `isAutoHidden`.  For comparison with
the code-side `renderedVisible`. -/
def specRenderedVisibility (cfg : Config) (s : HookState) : Bool :=
  isScrollable cfg s && (cfg.alwaysVisible || s.isDragging || !s.isAutoHidden)

/-- The gesture-handler states delivered by react-native-gesture-handler
to `onHandlerStateChange` / `onGestureEvent`: BEGAN, ACTIVE, END,
CANCELLED, FAILED. -/
inductive GestureState where
  | began
  | active
  | ended
  | cancelled
  | failed
deriving Repr, DecidableEq

/-- The externally observable callbacks invoked by the gesture handlers
of src/unnamed/part_002: the lifecycle callbacks `onPressStart` /
`onPressEnd`, the drag callbacks `onDragStart` / `onDragEnd`, and a
scroll-to-position request `onScrollToPosition(p)`. -/
inductive Callback where
  | pressStart
  | pressEnd
  | dragStart
  | dragEnd
  | scrollTo (p : ℚ)
deriving Repr, DecidableEq

/-- Translation of `handleTapGesture` (src/unnamed/part_002 lines 197-212) as the list
of callbacks it invokes for one handler-state event, in order: BEGAN
fires `onPressStart`; END computes the tap position and fires
`onScrollToPosition` then `onPressEnd`; CANCELLED and FAILED fire
`onPressEnd`; other states fire nothing. -/
def handleTapGesture (inverted : Bool) (containerHeight y : ℚ) :
    GestureState → List Callback
  | .began => [.pressStart]
  | .ended => [.scrollTo (tapPosition inverted containerHeight y), .pressEnd]
  | .cancelled => [.pressEnd]
  | .failed => [.pressEnd]
  | .active => []

/-- One event of the pan-gesture stream: the handler state plus the
`y` and `translationY` fields of `event.nativeEvent`
(src/unnamed/part_002 line 166). -/
structure PanEvent where
  state : GestureState
  y : ℚ
  translationY : ℚ
deriving Repr, DecidableEq

/-- Translation of `handleTrackGesture` (src/unnamed/part_002 lines 164-195):
given the current `dragStartPosition` ref value, returns the updated ref
value and the callbacks invoked, in order.  BEGAN records the touch
coordinate and fires `onDragStart`, `onPressStart`, and an immediate
`onScrollToPosition`; ACTIVE recomputes the position from the recorded
start coordinate plus the cumulative translation; END and CANCELLED fire
`onDragEnd` then `onPressEnd`; FAILED is not handled and fires
nothing. -/
def handleTrackGesture (inverted : Bool) (containerHeight dragStartPos : ℚ)
    (e : PanEvent) : ℚ × List Callback :=
  match e.state with
  | .began =>
      (e.y, [.dragStart, .pressStart, .scrollTo (tapPosition inverted containerHeight e.y)])
  | .active =>
      (dragStartPos, [.scrollTo (tapPosition inverted containerHeight (dragStartPos + e.translationY))])
  | .ended => (dragStartPos, [.dragEnd, .pressEnd])
  | .cancelled => (dragStartPos, [.dragEnd, .pressEnd])
  | .failed => (dragStartPos, [])

/-- The callbacks invoked by `handleTapGesture` over a sequence of
handler-state events, each paired with its `y` coordinate. -/
def runTap (inverted : Bool) (containerHeight : ℚ) :
    List (GestureState × ℚ) → List Callback
  | [] => []
  | e :: rest =>
      handleTapGesture inverted containerHeight e.2 e.1 ++ runTap inverted containerHeight rest

/-- The callbacks invoked by `handleTrackGesture` over a sequence of pan
events, threading the `dragStartPosition` ref. -/
def runPanAux (inverted : Bool) (containerHeight dragStartPos : ℚ) :
    List PanEvent → List Callback
  | [] => []
  | e :: rest =>
      let r := handleTrackGesture inverted containerHeight dragStartPos e
      r.2 ++ runPanAux inverted containerHeight r.1 rest

/-- The callbacks invoked by `handleTrackGesture` over one pan episode,
starting with the ref at its initial value 0 (src/unnamed/part_002 line
146). -/
def runPan (inverted : Bool) (containerHeight : ℚ) (es : List PanEvent) : List Callback :=
  runPanAux inverted containerHeight 0 es

/-- Number of `onPressStart` invocations in a callback trace. -/
def countPressStart (cbs : List Callback) : Nat :=
  (cbs.filter fun c => match c with | .pressStart => true | _ => false).length

/-- Number of `onPressEnd` invocations in a callback trace. -/
def countPressEnd (cbs : List Callback) : Nat :=
  (cbs.filter fun c => match c with | .pressEnd => true | _ => false).length

/-- A layout event as accessed by `onLayout`
(src/src/hooks/useScrollTrack.tsx lines 82-85).  The outer `Option` is
presence of `e.nativeEvent`, `layout` is presence of
`e.nativeEvent.layout`, and its payload is presence of the numeric
`height` field. -/
structure LayoutEvent where
  layout : Option (Option ℚ)
deriving Repr, DecidableEq

/-- Translation of `onLayout` (src/src/hooks/useScrollTrack.tsx lines 82-85): it reads
`e.nativeEvent.layout.height` with no guard: a missing `nativeEvent` or
missing `layout` object is a TypeError (modelled as `Except.error`);
otherwise the height value (possibly itself missing) is stored. -/
def onLayout (nativeEvent : Option LayoutEvent) : Except Unit (Option ℚ) :=
  match nativeEvent with
  | none => .error ()
  | some ev =>
      match ev.layout with
      | none => .error ()
      | some h => .ok h

/-- The numeric fields of a scroll event as read by
`handleScrollForVisibility`: `contentOffset?.y`,
`layoutMeasurement?.height`, `contentSize?.height`, each possibly
missing (a missing parent object and a missing leaf field behave the
same under optional chaining). -/
structure ScrollEventFields where
  contentOffsetY : Option ℚ
  layoutHeight : Option ℚ
  contentSizeHeight : Option ℚ
deriving Repr, DecidableEq

/-- Translation of `handleScrollForVisibility` (src/src/ScrollProgressTrack.tsx, second
document, lines 376-403), restricted to the values it computes from the
event: returns `none` on the guarded early return
(`if (!event?.nativeEvent) return`), otherwise
`(max 0 (contentOffset?.y || 0), layoutMeasurement?.height || 0,
contentSize?.height || 0)`.  Total: it never throws. -/
def handleScrollForVisibility (nativeEvent : Option ScrollEventFields) :
    Option (ℚ × ℚ × ℚ) :=
  match nativeEvent with
  | none => none
  | some f =>
      some (max 0 (f.contentOffsetY.getD 0), f.layoutHeight.getD 0, f.contentSizeHeight.getD 0)

/-- The default configuration of `useScrollTrack`
(src/src/hooks/useScrollTrack.tsx lines 37-45). -/
def cfgDefault : Config :=
  { alwaysVisible := false, disableGestures := false, inverted := false,
    fadeOutDelay := 1000, minScrollDistanceToShow := 20 }

/-- The default configuration with the `alwaysVisible` option set. -/
def cfgForced : Config :=
  { alwaysVisible := true, disableGestures := false, inverted := false,
    fadeOutDelay := 1000, minScrollDistanceToShow := 20 }

/-! ## Helper lemmas -/

/-- The clamp used on raw tap coordinates lands in `[0, 1]`. -/
theorem clamp01_nonneg (x : ℚ) : 0 ≤ clamp01 x := le_max_left 0 (min 1 x)

/-- The clamp used on raw tap coordinates lands in `[0, 1]`. -/
theorem clamp01_le_one (x : ℚ) : clamp01 x ≤ 1 :=
  max_le zero_le_one (min_le_left 1 x)

/-! ## Claim theorems -/

/-- C1: for every raw track coordinate `y` and track length
`availableHeight containerHeight`, the tap-to-position mapping of
`handleTapGesture` yields
`position = inverted ? 1 - clamp(y/L, 0, 1) : clamp(y/L, 0, 1)`, a value
in `[0, 1]`, and `scrollToPosition` turns it into the target offset
`position * max(0, contentExtent - viewportExtent)`; with
`contentExtent = 1000`, `viewportExtent = 200`, `trackLength = 200` and
`inverted = true`, a tap at raw coordinate `0` yields target offset `800`
and a tap at the full track length (raw fraction `1`) yields target
offset `0`. -/
theorem tap_mapping_spec (inverted : Bool) (contentHeight containerHeight y : ℚ) :
    tapPosition inverted containerHeight y =
      (if inverted then 1 - clamp01 (y / availableHeight containerHeight)
       else clamp01 (y / availableHeight containerHeight)) ∧
    0 ≤ tapPosition inverted containerHeight y ∧
    tapPosition inverted containerHeight y ≤ 1 ∧
    targetOffset contentHeight containerHeight (tapPosition inverted containerHeight y) =
      tapPosition inverted containerHeight y * max 0 (contentHeight - containerHeight) ∧
    targetOffset 1000 200 (tapPosition true 200 0) = 800 ∧
    targetOffset 1000 200 (tapPosition true 200 200) = 0 := by
  refine ⟨rfl, ?_, ?_, rfl, ?_, ?_⟩
  · cases inverted with
    | false => exact clamp01_nonneg _
    | true =>
        simp only [tapPosition, if_true]
        have := clamp01_le_one (y / availableHeight containerHeight)
        linarith
  · cases inverted with
    | false => exact clamp01_le_one _
    | true =>
        simp only [tapPosition, if_true]
        have := clamp01_nonneg (y / availableHeight containerHeight)
        linarith
  · norm_num [tapPosition, clamp01, availableHeight, targetOffset, maxOffset]
  · norm_num [tapPosition, clamp01, availableHeight, targetOffset, maxOffset]

/-- C2 counterexample: with `contentExtent = 201/2` and
`viewportExtent = 100` (so `contentExtent - viewportExtent = 1/2`), the
offset `o = 1/2` lies in `[0, contentExtent - viewportExtent]` and
`inverted = false`, yet mapping it forward through the code's normalized
position (`getNormalizedScrollPosition`, dividing by
`max(1, contentExtent - viewportExtent) = 1`) and back through
`targetOffset` (multiplying by `max(0, contentExtent - viewportExtent)
= 1/2`) yields `1/4`, not `1/2`. -/
theorem roundtrip_counterexample :
    (0 : ℚ) ≤ 1 / 2 ∧ (1 / 2 : ℚ) ≤ 201 / 2 - 100 ∧
    targetOffset (201 / 2) 100 (getNormalizedScrollPosition (201 / 2) 100 (1 / 2)) = 1 / 4 ∧
    (1 / 4 : ℚ) ≠ 1 / 2 := by
  refine ⟨by norm_num, by norm_num, ?_, by norm_num⟩
  norm_num [targetOffset, maxOffset, getNormalizedScrollPosition, interpolateClamp, scrollRange]

/-- C2 amended: when `contentExtent - viewportExtent ≥ 1` (so that the
guard `max(1, ·)` in the forward normalization and the guard `max(0, ·)`
in the inverse both equal the scrollable distance), the round trip
offset → normalized → offset recovers every offset
`o ∈ [0, contentExtent - viewportExtent]` exactly; for
`0 < contentExtent - viewportExtent < 1` the two guards disagree and the
round trip shrinks the offset. -/
theorem roundtrip_exact (contentHeight containerHeight o : ℚ)
    (hd : 1 ≤ contentHeight - containerHeight) (h0 : 0 ≤ o)
    (h1 : o ≤ contentHeight - containerHeight) :
    targetOffset contentHeight containerHeight
      (getNormalizedScrollPosition contentHeight containerHeight o) = o := by
  have hd0 : (0 : ℚ) ≤ contentHeight - containerHeight := le_trans zero_le_one hd
  have hdne : contentHeight - containerHeight ≠ 0 := by linarith
  simp only [targetOffset, maxOffset, getNormalizedScrollPosition, interpolateClamp,
    scrollRange, max_eq_right hd, max_eq_right hd0, min_eq_right h1, max_eq_right h0]
  field_simp

/-- C2 amended, witness: the round trip at `contentExtent = 1000`,
`viewportExtent = 200`, `o = 400` returns `400`. -/
theorem roundtrip_exact_witness :
    targetOffset 1000 200 (getNormalizedScrollPosition 1000 200 400) = 400 :=
  roundtrip_exact 1000 200 400 (by norm_num) (by norm_num) (by norm_num)

/-- C10: `scrollToPosition` does not clamp its `position` argument: the
issued offset is always `position * max(0, contentExtent -
viewportExtent)`, which is negative whenever `position < 0` and exceeds
the maximum scrollable offset whenever `position > 1` (given a positive
scrollable distance). -/
theorem scrollToPosition_no_clamp (contentHeight containerHeight position : ℚ) :
    targetOffset contentHeight containerHeight position =
      position * max 0 (contentHeight - containerHeight) ∧
    (position < 0 → 0 < maxOffset contentHeight containerHeight →
      targetOffset contentHeight containerHeight position < 0) ∧
    (1 < position → 0 < maxOffset contentHeight containerHeight →
      maxOffset contentHeight containerHeight <
        targetOffset contentHeight containerHeight position) := by
  refine ⟨rfl, ?_, ?_⟩
  · intro hp hm
    exact mul_neg_of_neg_of_pos hp hm
  · intro hp hm
    have := mul_lt_mul_of_pos_right hp hm
    simpa [targetOffset] using this

/-- C10 witness: at `contentExtent = 1000`, `viewportExtent = 200`,
`position = -1` issues offset `-800 < 0`, and `position = 2` issues
offset `1600 > 800`. -/
theorem scrollToPosition_no_clamp_witness :
    targetOffset 1000 200 (-1) < 0 ∧ maxOffset 1000 200 < targetOffset 1000 200 2 :=
  ⟨(scrollToPosition_no_clamp 1000 200 (-1)).2.1 (by norm_num)
      (by norm_num [maxOffset]),
   (scrollToPosition_no_clamp 1000 200 2).2.2 (by norm_num)
      (by norm_num [maxOffset])⟩

/-- C4: for every valid scroll offset (in `[0, max(0, contentExtent -
viewportExtent)]`, the range the consumer clamps offsets into), the
forward thumb mapping `animatedThumbPosition` equals
`inverted ? travel - travel * normalizedOffset : travel * normalizedOffset`
with `normalizedOffset = offset / max(1, contentExtent - viewportExtent)`
and `travel = maxThumbPosition` — the opposite inversion convention from
the tap mapping, which flips the raw coordinate itself. -/
theorem animatedThumbPosition_formula (inverted : Bool)
    (contentHeight containerHeight offset : ℚ) (h0 : 0 ≤ offset)
    (h1 : offset ≤ maxOffset contentHeight containerHeight) :
    animatedThumbPosition inverted contentHeight containerHeight offset =
      (if inverted then
        maxThumbPosition contentHeight containerHeight -
          maxThumbPosition contentHeight containerHeight *
            (offset / max 1 (contentHeight - containerHeight))
       else
        maxThumbPosition contentHeight containerHeight *
          (offset / max 1 (contentHeight - containerHeight))) := by
  have hle : offset ≤ max 1 (contentHeight - containerHeight) :=
    le_trans h1 (max_le_max zero_le_one (le_refl _))
  cases inverted with
  | false =>
      simp only [animatedThumbPosition, interpolateClamp, scrollRange, if_false,
        min_eq_right hle, max_eq_right h0]
      ring_nf
  | true =>
      simp only [animatedThumbPosition, interpolateClamp, scrollRange, if_true,
        min_eq_right hle, max_eq_right h0]
      ring_nf

/-- C4 witness: at `contentExtent = 1000`, `viewportExtent = 200`,
`offset = 400`, `inverted = true`: travel is `160`, the normalized offset
is `1/2`, and the thumb travel-offset is `160 - 160 * (1/2) = 80`. -/
theorem animatedThumbPosition_formula_witness :
    animatedThumbPosition true 1000 200 400 =
      maxThumbPosition 1000 200 - maxThumbPosition 1000 200 * (400 / max 1 ((1000 : ℚ) - 200)) := by
  have h := animatedThumbPosition_formula true 1000 200 400 (by norm_num)
    (by norm_num [maxOffset])
  simpa using h

/-- C3 counterexample: with the `alwaysVisible` option set, after
`onLayout` reports height `200` and `onContentSizeChange` reports
content height `210`, the `ScrollTrack` element is rendered (render
guard `containerHeight ≥ 100 ∧ contentHeight > containerHeight` passes)
with `visible = true`, although `isScrollable` is false
(`210 - 200 = 10 ≤ 20`); the spec formula
`scrollable && (forcedVisible || interacting || !suppressed)` evaluates
to false there, so rendered visibility does not equal it, and the
control is rendered visible while `scrollable` is false. -/
theorem visibility_formula_counterexample :
    renderedVisible cfgForced
      (run cfgForced [Event.layout 200, Event.contentSizeChange 210]) = true ∧
    specRenderedVisibility cfgForced
      (run cfgForced [Event.layout 200, Event.contentSizeChange 210]) = false ∧
    isScrollable cfgForced
      (run cfgForced [Event.layout 200, Event.contentSizeChange 210]) = false := by
  refine ⟨?_, ?_, ?_⟩ <;>
    norm_num [renderedVisible, renderedGuard, visibleProp, specRenderedVisibility,
      run, step, initialState, isScrollable, cfgForced]

/-- C3 amended: in every reachable state, the rendered visibility of the
track equals
`renderGuard && (forcedVisible || (!suppressed && scrollable))` (the
render guard being `trackLength ≥ 100 ∧ contentExtent > viewportExtent`,
with no `interacting` disjunct), the hook's returned `isVisible` equals
`scrollable && (forcedVisible || !suppressed)`, and when the
forced-visible option is off, `scrollable = false` implies the control is
neither rendered visible nor reported visible. -/
theorem visibility_formula_amended (cfg : Config) (es : List Event) :
    renderedVisible cfg (run cfg es) =
      (renderedGuard (run cfg es) &&
        (cfg.alwaysVisible || (!(run cfg es).isAutoHidden && isScrollable cfg (run cfg es)))) ∧
    isVisibleRet cfg (run cfg es) =
      (isScrollable cfg (run cfg es) && (cfg.alwaysVisible || !(run cfg es).isAutoHidden)) ∧
    (cfg.alwaysVisible = false → isScrollable cfg (run cfg es) = false →
      renderedVisible cfg (run cfg es) = false ∧ isVisibleRet cfg (run cfg es) = false) := by
  refine ⟨rfl, rfl, ?_⟩
  intro hav hsc
  simp [renderedVisible, visibleProp, isVisibleRet, hav, hsc]

/-- C3 amended, witness: with the default configuration and events
`layout 200`, `contentSize 210` (scrollable false), the control is
neither rendered visible nor reported visible. -/
theorem visibility_formula_amended_witness :
    renderedVisible cfgDefault
      (run cfgDefault [Event.layout 200, Event.contentSizeChange 210]) = false ∧
    isVisibleRet cfgDefault
      (run cfgDefault [Event.layout 200, Event.contentSizeChange 210]) = false :=
  (visibility_formula_amended cfgDefault [Event.layout 200, Event.contentSizeChange 210]).2.2
    rfl (by norm_num [run, step, initialState, isScrollable, cfgDefault])

/-- C5: in the hook's visibility state machine, `suppressed`
(`isAutoHidden`) shows no spontaneous re-show — the auto-hide timeout
firing, the only spontaneous transition, never clears it — and every
scroll event and every interaction-start (`handleDragStart`) event sets
`suppressed` to false, in particular when it arrives while `suppressed`
is true. -/
theorem suppressed_latch (cfg : Config) (s : HookState) :
    (s.isAutoHidden = true → (step cfg s Event.timerFire).isAutoHidden = true) ∧
    (step cfg s Event.scroll).isAutoHidden = false ∧
    (step cfg s Event.dragStart).isAutoHidden = false := by
  refine ⟨?_, ?_, rfl⟩
  · intro h
    simp only [step]
    split <;> simp [h]
  · simp only [step, startAutoHideTimer]
    split
    · split <;> rfl
    · rfl

/-- C5 witness: from a suppressed state with a pending timer, the timer
firing keeps it suppressed, and a scroll event clears the
suppression. -/
theorem suppressed_latch_witness :
    (step cfgDefault ⟨200, 500, true, false, true⟩ Event.timerFire).isAutoHidden = true ∧
    (step cfgDefault ⟨200, 500, true, false, true⟩ Event.scroll).isAutoHidden = false :=
  ⟨(suppressed_latch cfgDefault ⟨200, 500, true, false, true⟩).1 rfl,
   (suppressed_latch cfgDefault ⟨200, 500, true, false, true⟩).2.1⟩

/-- When `alwaysVisible` is set, no handler of the hook ever leaves a
hide timer pending (`startAutoHideTimer` skips the `setTimeout`, and
`handleDragEnd` skips the deferred restart). -/
theorem step_timerPending_false (cfg : Config) (h : cfg.alwaysVisible = true)
    (s : HookState) (hs : s.timerPending = false) (e : Event) :
    (step cfg s e).timerPending = false := by
  cases e <;> simp only [step, startAutoHideTimer, h] <;>
    first
      | exact hs
      | rfl
      | (split <;> simp [h, hs])

/-- When `alwaysVisible` is set, every reachable extension of a state
without a pending timer still has no pending timer. -/
theorem foldl_timerPending_false (cfg : Config) (h : cfg.alwaysVisible = true)
    (es : List Event) :
    ∀ s : HookState, s.timerPending = false →
      (es.foldl (step cfg) s).timerPending = false := by
  induction es with
  | nil => intro s hs; exact hs
  | cons e rest ih =>
      intro s hs
      exact ih _ (step_timerPending_false cfg h s hs e)

/-- When `alwaysVisible` is set, once `isAutoHidden` is false no handler
sets it back to true (the timer cannot fire because none is pending). -/
theorem step_autoHidden_false (cfg : Config) (h : cfg.alwaysVisible = true)
    (s : HookState) (ht : s.timerPending = false) (hh : s.isAutoHidden = false)
    (e : Event) : (step cfg s e).isAutoHidden = false := by
  cases e <;> simp only [step, startAutoHideTimer, h, ht] <;>
    first
      | exact hh
      | simp [hh]

/-- C6 counterexample: with `alwaysVisible = true` and no events at all,
the initial hook state already has `suppressed` (`isAutoHidden`) equal to
true (`useState(true)` at src/src/hooks/useScrollTrack.tsx line 54), so
`suppressed` is not always false. -/
theorem alwaysVisible_initial_suppressed :
    cfgForced.alwaysVisible = true ∧ (run cfgForced []).isAutoHidden = true :=
  ⟨rfl, rfl⟩

/-- C6 amended: if `alwaysVisible` is true then, in every reachable
state, the hide timer is never pending, and `suppressed` never returns
to true once cleared — it is true only in the initial segment before the
first scroll, scroll-to, or drag event (the initial state itself has
`suppressed = true`). -/
theorem alwaysVisible_invariant (cfg : Config) (es : List Event)
    (h : cfg.alwaysVisible = true) (e : Event) :
    (run cfg es).timerPending = false ∧
    ((run cfg es).isAutoHidden = false →
      (step cfg (run cfg es) e).isAutoHidden = false) := by
  have ht : (run cfg es).timerPending = false :=
    foldl_timerPending_false cfg h es initialState rfl
  exact ⟨ht, fun hh => step_autoHidden_false cfg h _ ht hh e⟩

/-- C6 amended, witness: with `alwaysVisible` and a first scroll event,
no timer is pending and the subsequent timer-fire event leaves
`suppressed` false. -/
theorem alwaysVisible_invariant_witness :
    (run cfgForced [Event.scroll]).timerPending = false ∧
    (step cfgForced (run cfgForced [Event.scroll]) Event.timerFire).isAutoHidden = false :=
  ⟨(alwaysVisible_invariant cfgForced [Event.scroll] rfl Event.timerFire).1,
   (alwaysVisible_invariant cfgForced [Event.scroll] rfl Event.timerFire).2
     (by norm_num [run, step, initialState, isScrollable, cfgForced])⟩

/-- C8 counterexample: with the default options, after `onLayout`
reports a track length of `50` (< 100) and `onContentSizeChange` reports
content height `500`, the `ScrollTrack` element is not rendered, but the
hook reports `isScrollable = true` (`500 - 50 = 450 > 20`): a track
length below 100 alone does not make the control report
`scrollable = false`. -/
theorem deactivation_counterexample :
    renderedGuard (run cfgDefault [Event.layout 50, Event.contentSizeChange 500]) = false ∧
    isScrollable cfgDefault
      (run cfgDefault [Event.layout 50, Event.contentSizeChange 500]) = true := by
  constructor <;>
    norm_num [renderedGuard, run, step, initialState, isScrollable, cfgDefault]

/-- C8 amended: for every state with `trackLength < 100` or
`contentExtent ≤ viewportExtent`, the control renders no geometry (the
component returns null), and — all handlers being total functions —
raises no error on degenerate extents; when `contentExtent ≤
viewportExtent` (and the min-scrollable option is nonnegative, as the
default 20 is) it additionally reports `scrollable = false`; `trackLength
< 100` alone does not force `scrollable = false`. -/
theorem deactivation_amended (cfg : Config) (s : HookState)
    (h : s.containerHeight < 100 ∨ s.contentHeight ≤ s.containerHeight) :
    renderedGuard s = false ∧
    (0 ≤ cfg.minScrollDistanceToShow → s.contentHeight ≤ s.containerHeight →
      isScrollable cfg s = false) := by
  constructor
  · rcases h with h | h <;> simp [renderedGuard, h]
  · intro hm hce
    simp only [isScrollable, decide_eq_false_iff_not, not_lt]
    linarith

/-- C8 amended, witness: at `trackLength = 50`,
`contentExtent = 40 ≤ viewportExtent = 50`, the control renders nothing
and reports `scrollable = false`. -/
theorem deactivation_amended_witness :
    renderedGuard ⟨50, 40, true, false, false⟩ = false ∧
    isScrollable cfgDefault ⟨50, 40, true, false, false⟩ = false :=
  ⟨(deactivation_amended cfgDefault ⟨50, 40, true, false, false⟩ (Or.inl (by norm_num))).1,
   (deactivation_amended cfgDefault ⟨50, 40, true, false, false⟩ (Or.inl (by norm_num))).2
     (by norm_num [cfgDefault]) (by norm_num)⟩

/-- C9: evidence of the divergence — the scroll-visibility handler
tolerates malformed events (early return on a missing `nativeEvent`,
missing numeric fields read as 0), but `onLayout` in `useScrollTrack`
dereferences `e.nativeEvent.layout.height` unguarded and throws
(`Except.error`) when `nativeEvent` or `layout` is missing, so not every
public event handler tolerates malformed events. -/
theorem onLayout_throws_on_malformed :
    onLayout none = Except.error () ∧
    onLayout (some ⟨none⟩) = Except.error () ∧
    handleScrollForVisibility none = none ∧
    handleScrollForVisibility (some ⟨none, none, none⟩) = some (0, 0, 0) :=
  ⟨rfl, rfl, rfl, rfl⟩

/-- Counts of `onPressStart` add over concatenated callback traces. -/
theorem countPressStart_append (a b : List Callback) :
    countPressStart (a ++ b) = countPressStart a + countPressStart b := by
  simp [countPressStart, List.filter_append]

/-- Counts of `onPressEnd` add over concatenated callback traces. -/
theorem countPressEnd_append (a b : List Callback) :
    countPressEnd (a ++ b) = countPressEnd a + countPressEnd b := by
  simp [countPressEnd, List.filter_append]

/-- A leading `onScrollToPosition` does not change the `onPressStart`
count. -/
theorem countPressStart_scrollTo_cons (p : ℚ) (l : List Callback) :
    countPressStart (Callback.scrollTo p :: l) = countPressStart l := rfl

/-- A leading `onScrollToPosition` does not change the `onPressEnd`
count. -/
theorem countPressEnd_scrollTo_cons (p : ℚ) (l : List Callback) :
    countPressEnd (Callback.scrollTo p :: l) = countPressEnd l := rfl

/-- A leading `onDragStart` does not change the `onPressStart` count. -/
theorem countPressStart_dragStart_cons (l : List Callback) :
    countPressStart (Callback.dragStart :: l) = countPressStart l := rfl

/-- A leading `onDragStart` does not change the `onPressEnd` count. -/
theorem countPressEnd_dragStart_cons (l : List Callback) :
    countPressEnd (Callback.dragStart :: l) = countPressEnd l := rfl

/-- A leading `onPressStart` adds one to the `onPressStart` count. -/
theorem countPressStart_pressStart_cons (l : List Callback) :
    countPressStart (Callback.pressStart :: l) = countPressStart l + 1 := rfl

/-- A leading `onPressStart` does not change the `onPressEnd` count. -/
theorem countPressEnd_pressStart_cons (l : List Callback) :
    countPressEnd (Callback.pressStart :: l) = countPressEnd l := rfl

/-- One ACTIVE pan event emits exactly one `onScrollToPosition` and
leaves the drag-start ref unchanged. -/
theorem runPanAux_cons_active (inverted : Bool) (containerHeight ds d0 : ℚ)
    (rest : List PanEvent) :
    runPanAux inverted containerHeight ds (PanEvent.mk .active 0 d0 :: rest) =
      Callback.scrollTo (tapPosition inverted containerHeight (ds + d0)) ::
        runPanAux inverted containerHeight ds rest := rfl

/-- ACTIVE pan events contribute no press-lifecycle callbacks. -/
theorem runPanAux_active_counts (inverted : Bool) (containerHeight : ℚ)
    (moves : List ℚ) :
    ∀ (dragStartPos : ℚ) (rest : List PanEvent),
      countPressStart (runPanAux inverted containerHeight dragStartPos
          ((moves.map fun d => PanEvent.mk .active 0 d) ++ rest)) =
        countPressStart (runPanAux inverted containerHeight dragStartPos rest) ∧
      countPressEnd (runPanAux inverted containerHeight dragStartPos
          ((moves.map fun d => PanEvent.mk .active 0 d) ++ rest)) =
        countPressEnd (runPanAux inverted containerHeight dragStartPos rest) := by
  induction moves with
  | nil => intro ds rest; exact ⟨rfl, rfl⟩
  | cons d moves ih =>
      intro ds rest
      rw [List.map_cons, List.cons_append, runPanAux_cons_active,
        countPressStart_scrollTo_cons, countPressEnd_scrollTo_cons]
      exact ih ds rest

/-- A BEGAN pan event emits `onDragStart`, `onPressStart` and an
immediate `onScrollToPosition`, and records the touch coordinate. -/
theorem runPanAux_cons_began (inverted : Bool) (containerHeight ds y0 : ℚ)
    (rest : List PanEvent) :
    runPanAux inverted containerHeight ds (PanEvent.mk .began y0 0 :: rest) =
      Callback.dragStart :: Callback.pressStart ::
        Callback.scrollTo (tapPosition inverted containerHeight y0) ::
        runPanAux inverted containerHeight y0 rest := rfl

/-- C7 counterexample: a pan-gesture episode that begins on the track and
then fails (the FAILED terminal state the pan can reach when released
without activating, which `handleTrackGesture` does not handle) invokes
`onPressStart` once but `onPressEnd` zero times — the end callback is
skipped for that episode. -/
theorem press_callbacks_counterexample :
    countPressStart (runPan false 200
        [PanEvent.mk .began 50 0, PanEvent.mk .failed 0 0]) = 1 ∧
    countPressEnd (runPan false 200
        [PanEvent.mk .began 50 0, PanEvent.mk .failed 0 0]) = 0 := by
  constructor <;> rfl

/-- C7 amended: per recognizer, `handleTapGesture` fires `onPressStart`
exactly once (at BEGAN) and `onPressEnd` exactly once (at END, CANCELLED
or FAILED) per episode; `handleTrackGesture` does the same for episodes
terminated by END or CANCELLED, regardless of the number of ACTIVE
moves, but an episode terminated by FAILED fires `onPressStart` without
a matching `onPressEnd`.  (The two recognizers fire independently, so a
contact processed by both is not globally exactly-once.) -/
theorem press_callbacks_amended (inverted : Bool) (containerHeight y0 y1 : ℚ)
    (t : GestureState) (moves : List ℚ) :
    (t = .ended ∨ t = .cancelled ∨ t = .failed →
      countPressStart (runTap inverted containerHeight [(.began, y0), (t, y1)]) = 1 ∧
      countPressEnd (runTap inverted containerHeight [(.began, y0), (t, y1)]) = 1) ∧
    (t = .ended ∨ t = .cancelled →
      countPressStart (runPan inverted containerHeight
          (PanEvent.mk .began y0 0 :: ((moves.map fun d => PanEvent.mk .active 0 d) ++
            [PanEvent.mk t 0 0]))) = 1 ∧
      countPressEnd (runPan inverted containerHeight
          (PanEvent.mk .began y0 0 :: ((moves.map fun d => PanEvent.mk .active 0 d) ++
            [PanEvent.mk t 0 0]))) = 1) ∧
    (countPressStart (runPan inverted containerHeight
          (PanEvent.mk .began y0 0 :: ((moves.map fun d => PanEvent.mk .active 0 d) ++
            [PanEvent.mk .failed 0 0]))) = 1 ∧
     countPressEnd (runPan inverted containerHeight
          (PanEvent.mk .began y0 0 :: ((moves.map fun d => PanEvent.mk .active 0 d) ++
            [PanEvent.mk .failed 0 0]))) = 0) := by
  refine ⟨?_, ?_, ?_⟩
  · rintro (rfl | rfl | rfl) <;> exact ⟨rfl, rfl⟩
  · rintro (rfl | rfl) <;>
      exact ⟨by
          simp only [runPan]
          rw [runPanAux_cons_began, countPressStart_dragStart_cons,
            countPressStart_pressStart_cons, countPressStart_scrollTo_cons,
            (runPanAux_active_counts inverted containerHeight moves y0 _).1]
          rfl,
        by
          simp only [runPan]
          rw [runPanAux_cons_began, countPressEnd_dragStart_cons,
            countPressEnd_pressStart_cons, countPressEnd_scrollTo_cons,
            (runPanAux_active_counts inverted containerHeight moves y0 _).2]
          rfl⟩
  · exact ⟨by
        simp only [runPan]
        rw [runPanAux_cons_began, countPressStart_dragStart_cons,
          countPressStart_pressStart_cons, countPressStart_scrollTo_cons,
          (runPanAux_active_counts inverted containerHeight moves y0 _).1]
        rfl,
      by
        simp only [runPan]
        rw [runPanAux_cons_began, countPressEnd_dragStart_cons,
          countPressEnd_pressStart_cons, countPressEnd_scrollTo_cons,
          (runPanAux_active_counts inverted containerHeight moves y0 _).2]
        rfl⟩

/-- C7 amended, witness: a tap episode BEGAN–END and a pan episode
BEGAN, one move, END each fire the pair exactly once; a pan episode
BEGAN, one move, FAILED fires only the start. -/
theorem press_callbacks_amended_witness :
    (countPressStart (runTap false 200 [(.began, 50), (.ended, 50)]) = 1 ∧
     countPressEnd (runTap false 200 [(.began, 50), (.ended, 50)]) = 1) ∧
    (countPressStart (runPan false 200
        (PanEvent.mk .began 50 0 :: (([10].map fun d => PanEvent.mk .active 0 d) ++
          [PanEvent.mk .ended 0 0]))) = 1 ∧
     countPressEnd (runPan false 200
        (PanEvent.mk .began 50 0 :: (([10].map fun d => PanEvent.mk .active 0 d) ++
          [PanEvent.mk .ended 0 0]))) = 1) ∧
    (countPressStart (runPan false 200
        (PanEvent.mk .began 50 0 :: (([10].map fun d => PanEvent.mk .active 0 d) ++
          [PanEvent.mk .failed 0 0]))) = 1 ∧
     countPressEnd (runPan false 200
        (PanEvent.mk .began 50 0 :: (([10].map fun d => PanEvent.mk .active 0 d) ++
          [PanEvent.mk .failed 0 0]))) = 0) :=
  ⟨(press_callbacks_amended false 200 50 50 .ended [10]).1 (Or.inl rfl),
   (press_callbacks_amended false 200 50 50 .ended [10]).2.1 (Or.inl rfl),
   (press_callbacks_amended false 200 50 50 .ended [10]).2.2⟩

end ScrollTrack
